import Mathlib

/-!
Shallow embedding of the analytics core of the meallog server
(`src/server/src/analytics/service.py` together with the models in
`src/server/src/analytics/models.py` and the request surface in
`src/server/src/analytics/router.py`).

Modelling conventions:
* Python `float` values are modelled as exact rationals (`ℚ`); all the
  arithmetic in the score calculator and the aggregators is sums, integer
  counts, `min`, and true division, so the rational model tracks the
  mathematical content of the formulas.
* Python `int` counters (all constrained `ge=0` in the SQLModel fields) are
  modelled as `Nat`; calendar dates are modelled as `Int` day numbers, so
  `date - timedelta(days=i)` becomes integer subtraction.
* Database-assigned columns that no claim is about (`id`, `created_at`,
  `updated_at`) and free-text display columns (`description`,
  `action_recommended`) are not carried in the records.
* The SQL queries (`WHERE date range` + `ORDER BY summary_date`) are
  modelled as a filter over the list of stored rows followed by an
  insertion sort on the date key; rows for one user have pairwise distinct
  dates (unique index on `(user_id, summary_date)`), so any comparison
  sort models `ORDER BY`.
* JSON `properties` payloads are opaque to the service; they are modelled
  as an uninterpreted optional string.
-/

namespace Meallog

/-- Row of the `daily_summaries` table (`DailySummary` in
`analytics/models.py`).  Field defaults mirror the column defaults; the
date column has no default and is always supplied. -/
structure DailySummary where
  summary_date : Int
  meals_logged : Nat := 0
  total_calories : Nat := 0
  total_protein_g : ℚ := 0
  total_carbs_g : ℚ := 0
  total_fat_g : ℚ := 0
  total_fiber_g : ℚ := 0
  water_glasses : Nat := 0
  app_sessions : Nat := 0
  total_app_time_minutes : Nat := 0
  photos_taken : Nat := 0
  posts_created : Nat := 0
  likes_given : Nat := 0
  comments_made : Nat := 0
  calorie_goal_met : Bool := false
  protein_goal_met : Bool := false
  water_goal_met : Bool := false
  meal_frequency_goal_met : Bool := false
  nutrition_score : ℚ := 0
  consistency_score : ℚ := 0
  social_engagement_score : ℚ := 0
  overall_score : ℚ := 0
deriving Repr, DecidableEq

/-- `AnalyticsService._calculate_nutrition_score`.  Python's `sum` over the
four booleans and the true division `goals_met / 4` are modelled in `ℚ`. -/
def calculate_nutrition_score (summary : DailySummary) : ℚ :=
  let goals_met : ℚ :=
    (if summary.calorie_goal_met then 1 else 0) +
    (if summary.protein_goal_met then 1 else 0) +
    (if summary.water_goal_met then 1 else 0) +
    (if summary.meal_frequency_goal_met then 1 else 0)
  let score : ℚ := 0 + (goals_met / 4) * 60
  let score := score +
    (if summary.meals_logged ≥ 3 then 20
     else if summary.meals_logged ≥ 2 then 15
     else if summary.meals_logged ≥ 1 then 10
     else 0)
  let score := score +
    (if summary.total_protein_g > 0 ∧ summary.total_carbs_g > 0 ∧ summary.total_fat_g > 0
     then 20 else 0)
  min 100 score

/-- `AnalyticsService._calculate_consistency_score`. -/
def calculate_consistency_score (summary : DailySummary) : ℚ :=
  if summary.meals_logged ≥ 3 then 100
  else if summary.meals_logged ≥ 2 then 70
  else if summary.meals_logged ≥ 1 then 40
  else 0

/-- `AnalyticsService._calculate_social_score`. -/
def calculate_social_score (summary : DailySummary) : ℚ :=
  let score : ℚ := 0
  let score := score +
    (if summary.posts_created ≥ 1 then min 40 ((summary.posts_created : ℚ) * 20) else 0)
  let score := score +
    (if summary.likes_given ≥ 1 then min 30 ((summary.likes_given : ℚ) * 5) else 0)
  let score := score +
    (if summary.comments_made ≥ 1 then min 30 ((summary.comments_made : ℚ) * 10) else 0)
  min 100 score

/-- The partial-counter update accepted by the `PUT /daily-summary` route
(`router.update_daily_summary`): one optional field per counter the route
forwards into `AnalyticsService.update_daily_summary(**updates)`.  `none`
models an argument the caller left out (Python `None`). -/
structure SummaryUpdates where
  meals_logged : Option Nat := none
  total_calories : Option Nat := none
  total_protein_g : Option ℚ := none
  total_carbs_g : Option ℚ := none
  total_fat_g : Option ℚ := none
  total_fiber_g : Option ℚ := none
  water_glasses : Option Nat := none
  app_sessions : Option Nat := none
  total_app_time_minutes : Option Nat := none
  photos_taken : Option Nat := none
  posts_created : Option Nat := none
  likes_given : Option Nat := none
  comments_made : Option Nat := none
deriving Repr, DecidableEq

/-- The `setattr` loop of `AnalyticsService.update_daily_summary`: each
supplied (non-`None`) field overwrites the stored value, everything else is
left alone. -/
def applyUpdates (summary : DailySummary) (u : SummaryUpdates) : DailySummary :=
  { summary with
    meals_logged := u.meals_logged.getD summary.meals_logged
    total_calories := u.total_calories.getD summary.total_calories
    total_protein_g := u.total_protein_g.getD summary.total_protein_g
    total_carbs_g := u.total_carbs_g.getD summary.total_carbs_g
    total_fat_g := u.total_fat_g.getD summary.total_fat_g
    total_fiber_g := u.total_fiber_g.getD summary.total_fiber_g
    water_glasses := u.water_glasses.getD summary.water_glasses
    app_sessions := u.app_sessions.getD summary.app_sessions
    total_app_time_minutes := u.total_app_time_minutes.getD summary.total_app_time_minutes
    photos_taken := u.photos_taken.getD summary.photos_taken
    posts_created := u.posts_created.getD summary.posts_created
    likes_given := u.likes_given.getD summary.likes_given
    comments_made := u.comments_made.getD summary.comments_made }

/-- `AnalyticsService.update_daily_summary` acting on an existing row:
apply the partial counter update, then recompute all four scores
(`overall_score` as the mean of the three component scores). -/
def update_daily_summary (summary : DailySummary) (u : SummaryUpdates) : DailySummary :=
  let s := applyUpdates summary u
  let n := calculate_nutrition_score s
  let c := calculate_consistency_score s
  let g := calculate_social_score s
  { s with
    nutrition_score := n
    consistency_score := c
    social_engagement_score := g
    overall_score := (n + c + g) / 3 }

/-- Insertion step on the `summary_date` key, ascending. -/
def insertDateAsc (s : DailySummary) : List DailySummary → List DailySummary
  | [] => [s]
  | t :: rest =>
      if t.summary_date ≤ s.summary_date then t :: insertDateAsc s rest
      else s :: t :: rest

/-- `ORDER BY summary_date` (ascending) over the rows of one user — an
insertion sort; the rows have pairwise distinct dates. -/
def sortDateAsc (l : List DailySummary) : List DailySummary :=
  l.foldr insertDateAsc []

/-- Insertion step on the `summary_date` key, descending. -/
def insertDateDesc (s : DailySummary) : List DailySummary → List DailySummary
  | [] => [s]
  | t :: rest =>
      if s.summary_date ≤ t.summary_date then t :: insertDateDesc s rest
      else s :: t :: rest

/-- `ORDER BY summary_date DESC` over the rows of one user. -/
def sortDateDesc (l : List DailySummary) : List DailySummary :=
  l.foldr insertDateDesc []

/-- Shape of `WeeklySummaryResponse` in `analytics/schemas.py`; the
per-day breakdown is carried as the summary rows themselves. -/
structure WeeklySummaryResponse where
  week_start_date : Int
  week_end_date : Int
  total_meals_logged : Nat
  avg_daily_calories : ℚ
  avg_daily_protein_g : ℚ
  avg_daily_carbs_g : ℚ
  avg_daily_fat_g : ℚ
  total_water_glasses : Nat
  total_photos_taken : Nat
  calorie_goal_achievement_rate : ℚ
  protein_goal_achievement_rate : ℚ
  water_goal_achievement_rate : ℚ
  meal_frequency_goal_achievement_rate : ℚ
  avg_nutrition_score : ℚ
  avg_consistency_score : ℚ
  avg_social_engagement_score : ℚ
  avg_overall_score : ℚ
  daily_summaries : List DailySummary
deriving Repr, DecidableEq

/-- `AnalyticsService.get_weekly_summary` over the stored rows `db` of one
user: select the rows with date in `[week_start, week_start+6]` ordered by
date; with no rows return the explicit all-zero response, otherwise the
sums, per-day averages and goal-achievement rates (true division by the
number of rows present). -/
def get_weekly_summary (week_start_date : Int) (db : List DailySummary) :
    WeeklySummaryResponse :=
  let week_end_date := week_start_date + 6
  let daily_summaries := sortDateAsc (db.filter fun s =>
    decide (week_start_date ≤ s.summary_date) && decide (s.summary_date ≤ week_end_date))
  if daily_summaries.isEmpty then
    { week_start_date
      week_end_date
      total_meals_logged := 0
      avg_daily_calories := 0
      avg_daily_protein_g := 0
      avg_daily_carbs_g := 0
      avg_daily_fat_g := 0
      total_water_glasses := 0
      total_photos_taken := 0
      calorie_goal_achievement_rate := 0
      protein_goal_achievement_rate := 0
      water_goal_achievement_rate := 0
      meal_frequency_goal_achievement_rate := 0
      avg_nutrition_score := 0
      avg_consistency_score := 0
      avg_social_engagement_score := 0
      avg_overall_score := 0
      daily_summaries }
  else
    let days_count : ℚ := daily_summaries.length
    { week_start_date
      week_end_date
      total_meals_logged := (daily_summaries.map (·.meals_logged)).sum
      avg_daily_calories := ((daily_summaries.map (·.total_calories)).sum : ℚ) / days_count
      avg_daily_protein_g := (daily_summaries.map (·.total_protein_g)).sum / days_count
      avg_daily_carbs_g := (daily_summaries.map (·.total_carbs_g)).sum / days_count
      avg_daily_fat_g := (daily_summaries.map (·.total_fat_g)).sum / days_count
      total_water_glasses := (daily_summaries.map (·.water_glasses)).sum
      total_photos_taken := (daily_summaries.map (·.photos_taken)).sum
      calorie_goal_achievement_rate :=
        ((daily_summaries.countP (·.calorie_goal_met) : ℚ) / days_count) * 100
      protein_goal_achievement_rate :=
        ((daily_summaries.countP (·.protein_goal_met) : ℚ) / days_count) * 100
      water_goal_achievement_rate :=
        ((daily_summaries.countP (·.water_goal_met) : ℚ) / days_count) * 100
      meal_frequency_goal_achievement_rate :=
        ((daily_summaries.countP (·.meal_frequency_goal_met) : ℚ) / days_count) * 100
      avg_nutrition_score := (daily_summaries.map (·.nutrition_score)).sum / days_count
      avg_consistency_score := (daily_summaries.map (·.consistency_score)).sum / days_count
      avg_social_engagement_score :=
        (daily_summaries.map (·.social_engagement_score)).sum / days_count
      avg_overall_score := (daily_summaries.map (·.overall_score)).sum / days_count
      daily_summaries }

/-- Shape of `AnalyticsInsightResponse` in `analytics/schemas.py`.  The
`data` dictionary is carried as one optional field per key the service
ever stores; the free-text `description` / `action_recommended` columns
and the wall-clock `created_at` are not modelled. -/
structure AnalyticsInsightResponse where
  insight_type : String
  title : String
  data_streak_days : Option Nat := none
  data_recent_score : Option ℚ := none
  data_previous_score : Option ℚ := none
  data_improvement : Option ℚ := none
deriving Repr, DecidableEq

/-- Condition of the streak walk in `AnalyticsService.generate_insights`:
the row at position `i` of the descending list extends the streak when its
date is `today - i` and it logged at least one meal. -/
def qualifiesB (today : Int) (s : DailySummary) (i : Nat) : Bool :=
  decide (s.summary_date = today - (i : Int)) && decide (s.meals_logged > 0)

/-- The `for i, summary in enumerate(recent_summaries)` loop of
`generate_insights`: count qualifying rows from position `i` on, stopping
at the first row that fails. -/
def consecutiveDaysFrom (today : Int) : List DailySummary → Nat → Nat
  | [], _ => 0
  | s :: rest, i =>
      if qualifiesB today s i then consecutiveDaysFrom today rest (i + 1) + 1
      else 0

/-- The streak branch of `generate_insights`: one insight at streak ≥ 7
("Amazing"), one at streak in `[3, 6]` ("Great"), none below 3. -/
def streakInsight (consecutive_days : Nat) : List AnalyticsInsightResponse :=
  if consecutive_days ≥ 7 then
    [{ insight_type := "streak"
       title := "Amazing " ++ toString consecutive_days ++ "-Day Streak!"
       data_streak_days := some consecutive_days }]
  else if consecutive_days ≥ 3 then
    [{ insight_type := "streak"
       title := "Great " ++ toString consecutive_days ++ "-Day Streak!"
       data_streak_days := some consecutive_days }]
  else []

/-- The nutrition-trend branch of `generate_insights`: with at least 7
rows compare `recent_summaries[:7]` against `recent_summaries[7:14]` (the
latter taken only when at least 14 rows exist), and emit one insight when
the mean nutrition score improved by at least 5 points. -/
def improvementInsight (recent_summaries : List DailySummary) :
    List AnalyticsInsightResponse :=
  if recent_summaries.length ≥ 7 then
    let recent_week := recent_summaries.take 7
    let previous_week :=
      if recent_summaries.length ≥ 14 then (recent_summaries.drop 7).take 7 else []
    if previous_week.isEmpty then []
    else
      let recent_avg_nutrition :=
        (recent_week.map (·.nutrition_score)).sum / (recent_week.length : ℚ)
      let previous_avg_nutrition :=
        (previous_week.map (·.nutrition_score)).sum / (previous_week.length : ℚ)
      let improvement := recent_avg_nutrition - previous_avg_nutrition
      if improvement ≥ 5 then
        [{ insight_type := "improvement"
           title := "Nutrition Score Improving!"
           data_recent_score := some recent_avg_nutrition
           data_previous_score := some previous_avg_nutrition
           data_improvement := some improvement }]
      else []
  else []

/-- The 30-day window query of `generate_insights`: rows with date in
`[today - 30, today]`, ordered by date descending. -/
def recentSummaries (today : Int) (db : List DailySummary) : List DailySummary :=
  sortDateDesc (db.filter fun s =>
    decide (today - 30 ≤ s.summary_date) && decide (s.summary_date ≤ today))

/-- `AnalyticsService.generate_insights` over the stored rows `db` of one
user: empty window gives no insights; otherwise the streak insight (if
any) followed by the improvement insight (if any). -/
def generate_insights (today : Int) (db : List DailySummary) :
    List AnalyticsInsightResponse :=
  let recent := recentSummaries today db
  if recent.isEmpty then []
  else
    streakInsight (consecutiveDaysFrom today recent 0) ++ improvementInsight recent

/-- The streak insights of a returned list. -/
def streakOf (insights : List AnalyticsInsightResponse) :
    List AnalyticsInsightResponse :=
  insights.filter (·.insight_type == "streak")

/-- The improvement insights of a returned list. -/
def improvementOf (insights : List AnalyticsInsightResponse) :
    List AnalyticsInsightResponse :=
  insights.filter (·.insight_type == "improvement")

/-- Payload of `AnalyticsEventCreateRequest` in `analytics/schemas.py`;
the JSON `properties` dictionary is opaque to the service and modelled as
an uninterpreted optional string. -/
structure AnalyticsEventCreateRequest where
  event_type : String
  event_category : String
  properties : Option String := none
  session_id : Option String := none
  platform : Option String := none
  app_version : Option String := none
deriving Repr, DecidableEq

/-- Row of the `analytics_events` table as built by the service;
database-assigned `id` / `created_at` are not modelled, users are `Nat`
identifiers. -/
structure AnalyticsEvent where
  user_id : Nat
  event_type : String
  event_category : String
  properties : Option String := none
  session_id : Option String := none
  platform : Option String := none
  app_version : Option String := none
deriving Repr, DecidableEq

/-- Shape of `AnalyticsEventResponse` (without the database-assigned `id`
and `created_at`). -/
structure AnalyticsEventResponse where
  user_id : Nat
  event_type : String
  event_category : String
  properties : Option String := none
  session_id : Option String := none
  platform : Option String := none
  app_version : Option String := none
deriving Repr, DecidableEq

/-- The `AnalyticsEvent(...)` constructor call in the batch loop of
`track_events_batch`. -/
def eventFor (user_id : Nat) (e : AnalyticsEventCreateRequest) : AnalyticsEvent :=
  { user_id
    event_type := e.event_type
    event_category := e.event_category
    properties := e.properties
    session_id := e.session_id
    platform := e.platform
    app_version := e.app_version }

/-- The `AnalyticsEventResponse(...)` built from a stored event in the
return comprehension of `track_events_batch`. -/
def responseOf (ev : AnalyticsEvent) : AnalyticsEventResponse :=
  { user_id := ev.user_id
    event_type := ev.event_type
    event_category := ev.event_category
    properties := ev.properties
    session_id := ev.session_id
    platform := ev.platform
    app_version := ev.app_version }

/-- `AnalyticsService.track_events_batch` acting on the stored event log:
a batch of more than 100 events raises `BadRequestError` before anything
is added, leaving the log unchanged; otherwise every event is appended to
the log and echoed back as a response, in input order. -/
def track_events_batch (store : List AnalyticsEvent) (user_id : Nat)
    (events_data : List AnalyticsEventCreateRequest) :
    List AnalyticsEvent × Except String (List AnalyticsEventResponse) :=
  if events_data.length > 100 then
    (store, Except.error "Maximum 100 events allowed per batch")
  else
    let events : List AnalyticsEvent := events_data.map (eventFor user_id)
    (store ++ events, Except.ok (events.map responseOf))

/-- Modelled from the spec's wording of the nutrition formula, for
comparison with `calculate_nutrition_score`: 60 × (count of the four goal
flags that are true ÷ 4), plus the logging-volume bonus, plus 20 when all
three macro totals are strictly positive, clamped to at most 100. -/
def nutritionScoreSpec (s : DailySummary) : ℚ :=
  let goalsMetCount : ℚ :=
    (([s.calorie_goal_met, s.protein_goal_met, s.water_goal_met,
       s.meal_frequency_goal_met].countP id : Nat) : ℚ)
  let volumeBonus : ℚ :=
    if s.meals_logged ≥ 3 then 20
    else if s.meals_logged ≥ 2 then 15
    else if s.meals_logged ≥ 1 then 10
    else 0
  let macroBonus : ℚ :=
    if s.total_protein_g > 0 ∧ s.total_carbs_g > 0 ∧ s.total_fat_g > 0 then 20 else 0
  min (60 * (goalsMetCount / 4) + volumeBonus + macroBonus) 100

/-- A daily summary with three meals and all three macros positive, as in
the spec's read-back example. -/
def exampleUpdates : SummaryUpdates :=
  { meals_logged := some 3
    total_protein_g := some 10
    total_carbs_g := some 20
    total_fat_g := some 5 }

/-- A blank summary row for a fixed date, used to instantiate the update
theorems. -/
def exampleRow : DailySummary := { summary_date := 0 }

/-- A week with summaries on exactly three days, two of which met the
calorie goal, used for the rate claims. -/
def exampleWeek : List DailySummary :=
  [{ summary_date := 0, calorie_goal_met := true },
   { summary_date := 1, calorie_goal_met := true },
   { summary_date := 2 }]

/-- A well-formed single event request used to instantiate the batch
theorems. -/
def exampleEvent : AnalyticsEventCreateRequest :=
  { event_type := "app_open"
    event_category := "app"
    session_id := some "sess-1"
    platform := some "ios"
    app_version := some "1.0.0" }

/-- A second event request, for a meal-category event. -/
def exampleMealEvent : AnalyticsEventCreateRequest :=
  { exampleEvent with event_type := "meal_created", event_category := "meal" }

/-- The claim's streak ending today of length exactly `n`: the first `n`
rows of the descending 30-day window are the dates `today, today-1, …,
today-(n-1)` each with at least one meal, and the window either ends there
or its next row breaks the chain (wrong date or zero meals). -/
def streakScenario (today : Int) (db : List DailySummary) (n : Nat) : Prop :=
  n ≤ (recentSummaries today db).length ∧
  (∀ j, j < n →
    ((recentSummaries today db)[j]?.any fun s => qualifiesB today s j) = true) ∧
  ((recentSummaries today db).length = n ∨
    ((recentSummaries today db)[n]?.any fun s => !qualifiesB today s n) = true)

instance (today : Int) (db : List DailySummary) (n : Nat) :
    Decidable (streakScenario today db n) := by
  unfold streakScenario
  infer_instance

/-- A summary row with a date and a meal count, for the streak examples. -/
def streakDay (dt : Int) (m : Nat) : DailySummary :=
  { summary_date := dt, meals_logged := m }

/-- Seven consecutive logged days ending on day 1000. -/
def streakWeekDb : List DailySummary :=
  [streakDay 1000 1, streakDay 999 1, streakDay 998 2, streakDay 997 1,
   streakDay 996 1, streakDay 995 3, streakDay 994 1]

/-- Five consecutive logged days ending on day 1000. -/
def streakFiveDb : List DailySummary :=
  [streakDay 1000 1, streakDay 999 1, streakDay 998 1, streakDay 997 1,
   streakDay 996 2]

/-- Two consecutive logged days ending on day 1000. -/
def streakTwoDb : List DailySummary :=
  [streakDay 1000 1, streakDay 999 1]

/-- A summary row with a date and a nutrition score, for the trend
examples. -/
def trendDay (dt : Int) (ns : ℚ) : DailySummary :=
  { summary_date := dt, nutrition_score := ns }

/-- Fourteen days ending on day 1000: recent week scored 55, prior week
scored 50 — a delta of exactly 5. -/
def improvedTrendDb : List DailySummary :=
  [trendDay 1000 55, trendDay 999 55, trendDay 998 55, trendDay 997 55,
   trendDay 996 55, trendDay 995 55, trendDay 994 55, trendDay 993 50,
   trendDay 992 50, trendDay 991 50, trendDay 990 50, trendDay 989 50,
   trendDay 988 50, trendDay 987 50]

/-- The rational 54.9 as an already-normalized fraction (kept in lowest
terms so that equality on it evaluates). -/
def q549d10 : ℚ := ⟨549, 10, by norm_num, by norm_num⟩

/-- Fourteen days ending on day 1000: recent week scored 54.9, prior week
scored 50 — a delta of 4.9. -/
def flatTrendDb : List DailySummary :=
  [trendDay 1000 q549d10, trendDay 999 q549d10, trendDay 998 q549d10,
   trendDay 997 q549d10, trendDay 996 q549d10, trendDay 995 q549d10,
   trendDay 994 q549d10, trendDay 993 50, trendDay 992 50, trendDay 991 50,
   trendDay 990 50, trendDay 989 50, trendDay 988 50, trendDay 987 50]

/-- C1: after every `update_daily_summary`, the persisted `overall_score`
is the mean of the three component scores, and each component score is the
one recomputed by the score calculator on the updated counters — the
caller's input never sets any of the four scores. -/
theorem update_overall_score_invariant (s : DailySummary) (u : SummaryUpdates) :
    (update_daily_summary s u).overall_score =
      ((update_daily_summary s u).nutrition_score +
        (update_daily_summary s u).consistency_score +
        (update_daily_summary s u).social_engagement_score) / 3 ∧
    (update_daily_summary s u).nutrition_score =
      calculate_nutrition_score (applyUpdates s u) ∧
    (update_daily_summary s u).consistency_score =
      calculate_consistency_score (applyUpdates s u) ∧
    (update_daily_summary s u).social_engagement_score =
      calculate_social_score (applyUpdates s u) :=
  ⟨rfl, rfl, rfl, rfl⟩

/-- C2: the code's nutrition score agrees with the spec's formula (60 ×
goals-met fraction, plus the volume bonus, plus the macro-balance bonus,
clamped to 100) on every summary snapshot. -/
theorem nutrition_score_spec_correct (s : DailySummary) :
    calculate_nutrition_score s = nutritionScoreSpec s := by
  obtain ⟨dt, m, tc, pr, cb, ft, fb, w, ap, tm, ph, po, li, co, g1, g2, g3, g4, n1, c1, s1, o1⟩ := s
  cases g1 <;> cases g2 <;> cases g3 <;> cases g4 <;>
    · simp only [calculate_nutrition_score, nutritionScoreSpec, List.countP, List.countP.go,
        min_comm, if_true, if_false, cond_true, cond_false, id]
      norm_num

/-- C9: holding every other field fixed, the nutrition score is monotone
non-decreasing in `meals_logged`, and it never exceeds 100. -/
theorem nutrition_score_monotone (s : DailySummary) :
    (∀ m1 m2 : Nat, m1 ≤ m2 →
      calculate_nutrition_score { s with meals_logged := m1 } ≤
        calculate_nutrition_score { s with meals_logged := m2 }) ∧
    calculate_nutrition_score s ≤ 100 := by
  constructor
  · intro m1 m2 h
    simp only [calculate_nutrition_score]
    refine min_le_min le_rfl ?_
    refine add_le_add_right (add_le_add_left ?_ _) _
    split_ifs <;> (try norm_num) <;> omega
  · exact min_le_left _ _

/-- Witness for C9 at the concrete pair `meals_logged = 0 ≤ 3`. -/
theorem nutrition_score_monotone_witness :
    (0 : Nat) ≤ 3 ∧
    calculate_nutrition_score { exampleRow with meals_logged := 0 } ≤
      calculate_nutrition_score { exampleRow with meals_logged := 3 } ∧
    calculate_nutrition_score exampleRow ≤ 100 :=
  ⟨by decide, (nutrition_score_monotone exampleRow).1 0 3 (by decide),
    (nutrition_score_monotone exampleRow).2⟩

/-- C8: `update_daily_summary` changes exactly the counters supplied with
non-null values — every counter supplied as `none` keeps its previous
value, every counter supplied as `some v` becomes `v`, the date and the
goal flags are untouched, and the only other fields that change are the
four recomputed scores. -/
theorem update_frame (s : DailySummary) (u : SummaryUpdates) :
    (u.meals_logged = none →
      (update_daily_summary s u).meals_logged = s.meals_logged) ∧
    (u.total_calories = none →
      (update_daily_summary s u).total_calories = s.total_calories) ∧
    (u.total_protein_g = none →
      (update_daily_summary s u).total_protein_g = s.total_protein_g) ∧
    (u.total_carbs_g = none →
      (update_daily_summary s u).total_carbs_g = s.total_carbs_g) ∧
    (u.total_fat_g = none →
      (update_daily_summary s u).total_fat_g = s.total_fat_g) ∧
    (u.total_fiber_g = none →
      (update_daily_summary s u).total_fiber_g = s.total_fiber_g) ∧
    (u.water_glasses = none →
      (update_daily_summary s u).water_glasses = s.water_glasses) ∧
    (u.app_sessions = none →
      (update_daily_summary s u).app_sessions = s.app_sessions) ∧
    (u.total_app_time_minutes = none →
      (update_daily_summary s u).total_app_time_minutes = s.total_app_time_minutes) ∧
    (u.photos_taken = none →
      (update_daily_summary s u).photos_taken = s.photos_taken) ∧
    (u.posts_created = none →
      (update_daily_summary s u).posts_created = s.posts_created) ∧
    (u.likes_given = none →
      (update_daily_summary s u).likes_given = s.likes_given) ∧
    (u.comments_made = none →
      (update_daily_summary s u).comments_made = s.comments_made) ∧
    (∀ v, u.meals_logged = some v → (update_daily_summary s u).meals_logged = v) ∧
    (∀ v, u.total_calories = some v → (update_daily_summary s u).total_calories = v) ∧
    (∀ v, u.total_protein_g = some v → (update_daily_summary s u).total_protein_g = v) ∧
    (∀ v, u.total_carbs_g = some v → (update_daily_summary s u).total_carbs_g = v) ∧
    (∀ v, u.total_fat_g = some v → (update_daily_summary s u).total_fat_g = v) ∧
    (∀ v, u.total_fiber_g = some v → (update_daily_summary s u).total_fiber_g = v) ∧
    (∀ v, u.water_glasses = some v → (update_daily_summary s u).water_glasses = v) ∧
    (∀ v, u.app_sessions = some v → (update_daily_summary s u).app_sessions = v) ∧
    (∀ v, u.total_app_time_minutes = some v →
      (update_daily_summary s u).total_app_time_minutes = v) ∧
    (∀ v, u.photos_taken = some v → (update_daily_summary s u).photos_taken = v) ∧
    (∀ v, u.posts_created = some v → (update_daily_summary s u).posts_created = v) ∧
    (∀ v, u.likes_given = some v → (update_daily_summary s u).likes_given = v) ∧
    (∀ v, u.comments_made = some v → (update_daily_summary s u).comments_made = v) ∧
    (update_daily_summary s u).summary_date = s.summary_date ∧
    (update_daily_summary s u).calorie_goal_met = s.calorie_goal_met ∧
    (update_daily_summary s u).protein_goal_met = s.protein_goal_met ∧
    (update_daily_summary s u).water_goal_met = s.water_goal_met ∧
    (update_daily_summary s u).meal_frequency_goal_met = s.meal_frequency_goal_met ∧
    (update_daily_summary s u).nutrition_score =
      calculate_nutrition_score (applyUpdates s u) ∧
    (update_daily_summary s u).consistency_score =
      calculate_consistency_score (applyUpdates s u) ∧
    (update_daily_summary s u).social_engagement_score =
      calculate_social_score (applyUpdates s u) ∧
    (update_daily_summary s u).overall_score =
      (calculate_nutrition_score (applyUpdates s u) +
        calculate_consistency_score (applyUpdates s u) +
        calculate_social_score (applyUpdates s u)) / 3 := by
  refine ⟨?_, ?_, ?_, ?_, ?_, ?_, ?_, ?_, ?_, ?_, ?_, ?_, ?_, ?_, ?_, ?_, ?_, ?_, ?_, ?_,
    ?_, ?_, ?_, ?_, ?_, ?_, ?_, ?_, ?_, ?_, ?_, ?_, ?_, ?_, ?_⟩ <;>
    (intros; simp_all [update_daily_summary, applyUpdates])

/-- Witness for C8: a concrete update supplying meals and the three macro
totals leaves unsupplied counters and the flags unchanged, applies the
supplied values, and recomputes the scores. -/
theorem update_frame_witness :
    exampleUpdates.total_calories = none ∧
    (update_daily_summary exampleRow exampleUpdates).total_calories =
      exampleRow.total_calories ∧
    exampleUpdates.meals_logged = some 3 ∧
    (update_daily_summary exampleRow exampleUpdates).meals_logged = 3 ∧
    (update_daily_summary exampleRow exampleUpdates).calorie_goal_met =
      exampleRow.calorie_goal_met ∧
    (update_daily_summary exampleRow exampleUpdates).nutrition_score =
      calculate_nutrition_score (applyUpdates exampleRow exampleUpdates) :=
  ⟨by decide,
    (update_frame exampleRow exampleUpdates).2.1 (by decide),
    by decide,
    (update_frame exampleRow exampleUpdates).2.2.2.2.2.2.2.2.2.2.2.2.2.1 3 (by decide),
    (update_frame exampleRow exampleUpdates).2.2.2.2.2.2.2.2.2.2.2.2.2.2.2.2.2.2.2.2.2.2.2.2.2.2.2.1,
    (update_frame exampleRow exampleUpdates).2.2.2.2.2.2.2.2.2.2.2.2.2.2.2.2.2.2.2.2.2.2.2.2.2.2.2.2.2.2.2.1⟩

/-- The per-day list returned by `get_weekly_summary` is always the
date-ordered selection of the week's rows, in both the empty and the
non-empty branch. -/
lemma get_weekly_summary_daily (week_start_date : Int) (db : List DailySummary) :
    (get_weekly_summary week_start_date db).daily_summaries =
      sortDateAsc (db.filter fun s =>
        decide (week_start_date ≤ s.summary_date) &&
        decide (s.summary_date ≤ week_start_date + 6)) := by
  simp only [get_weekly_summary]
  split <;> rfl

/-- C5: for every non-empty week each goal-achievement rate is
(days met ÷ days with a summary row) × 100; in the 3-day example week with
2 calorie goals met the calorie rate is exactly 2/3 × 100 (66.67 after
rounding to two decimals), not 2/7 × 100. -/
theorem weekly_goal_rates :
    (∀ (week_start_date : Int) (db : List DailySummary),
      (get_weekly_summary week_start_date db).daily_summaries ≠ [] →
      (get_weekly_summary week_start_date db).calorie_goal_achievement_rate =
        (((get_weekly_summary week_start_date db).daily_summaries.countP
            (·.calorie_goal_met) : ℚ) /
          ((get_weekly_summary week_start_date db).daily_summaries.length : ℚ)) * 100 ∧
      (get_weekly_summary week_start_date db).protein_goal_achievement_rate =
        (((get_weekly_summary week_start_date db).daily_summaries.countP
            (·.protein_goal_met) : ℚ) /
          ((get_weekly_summary week_start_date db).daily_summaries.length : ℚ)) * 100 ∧
      (get_weekly_summary week_start_date db).water_goal_achievement_rate =
        (((get_weekly_summary week_start_date db).daily_summaries.countP
            (·.water_goal_met) : ℚ) /
          ((get_weekly_summary week_start_date db).daily_summaries.length : ℚ)) * 100 ∧
      (get_weekly_summary week_start_date db).meal_frequency_goal_achievement_rate =
        (((get_weekly_summary week_start_date db).daily_summaries.countP
            (·.meal_frequency_goal_met) : ℚ) /
          ((get_weekly_summary week_start_date db).daily_summaries.length : ℚ)) * 100) ∧
    (get_weekly_summary 0 exampleWeek).calorie_goal_achievement_rate = (2 / 3) * 100 ∧
    (get_weekly_summary 0 exampleWeek).calorie_goal_achievement_rate ≠ (2 / 7) * 100 ∧
    round ((get_weekly_summary 0 exampleWeek).calorie_goal_achievement_rate * 100) =
      (6667 : ℤ) := by
  have key : ∀ (week_start_date : Int) (db : List DailySummary),
      (get_weekly_summary week_start_date db).daily_summaries ≠ [] →
      (get_weekly_summary week_start_date db).calorie_goal_achievement_rate =
        (((get_weekly_summary week_start_date db).daily_summaries.countP
            (·.calorie_goal_met) : ℚ) /
          ((get_weekly_summary week_start_date db).daily_summaries.length : ℚ)) * 100 ∧
      (get_weekly_summary week_start_date db).protein_goal_achievement_rate =
        (((get_weekly_summary week_start_date db).daily_summaries.countP
            (·.protein_goal_met) : ℚ) /
          ((get_weekly_summary week_start_date db).daily_summaries.length : ℚ)) * 100 ∧
      (get_weekly_summary week_start_date db).water_goal_achievement_rate =
        (((get_weekly_summary week_start_date db).daily_summaries.countP
            (·.water_goal_met) : ℚ) /
          ((get_weekly_summary week_start_date db).daily_summaries.length : ℚ)) * 100 ∧
      (get_weekly_summary week_start_date db).meal_frequency_goal_achievement_rate =
        (((get_weekly_summary week_start_date db).daily_summaries.countP
            (·.meal_frequency_goal_met) : ℚ) /
          ((get_weekly_summary week_start_date db).daily_summaries.length : ℚ)) * 100 := by
    intro week_start_date db h
    rw [get_weekly_summary_daily] at h
    have hne : (sortDateAsc (db.filter fun s =>
        decide (week_start_date ≤ s.summary_date) &&
        decide (s.summary_date ≤ week_start_date + 6))).isEmpty = false := by
      simpa [List.isEmpty_iff] using h
    refine ⟨?_, ?_, ?_, ?_⟩ <;>
      · rw [get_weekly_summary_daily]
        simp only [get_weekly_summary, hne, Bool.false_eq_true, if_false]
  have hc : ((get_weekly_summary 0 exampleWeek).daily_summaries.countP
      (·.calorie_goal_met)) = 2 := by decide
  have hl : ((get_weekly_summary 0 exampleWeek).daily_summaries.length) = 3 := by decide
  have hne : (get_weekly_summary 0 exampleWeek).daily_summaries ≠ [] := by decide
  have hrate := (key 0 exampleWeek hne).1
  rw [hc, hl] at hrate
  refine ⟨key, ?_, ?_, ?_⟩
  · rw [hrate]; norm_num
  · rw [hrate]; norm_num
  · rw [hrate]; norm_num [round_eq]

/-- Witness for C5 at the 3-day example week. -/
theorem weekly_goal_rates_witness :
    (get_weekly_summary 0 exampleWeek).daily_summaries ≠ [] ∧
    ((get_weekly_summary 0 exampleWeek).calorie_goal_achievement_rate =
        (((get_weekly_summary 0 exampleWeek).daily_summaries.countP
            (·.calorie_goal_met) : ℚ) /
          ((get_weekly_summary 0 exampleWeek).daily_summaries.length : ℚ)) * 100 ∧
      (get_weekly_summary 0 exampleWeek).protein_goal_achievement_rate =
        (((get_weekly_summary 0 exampleWeek).daily_summaries.countP
            (·.protein_goal_met) : ℚ) /
          ((get_weekly_summary 0 exampleWeek).daily_summaries.length : ℚ)) * 100 ∧
      (get_weekly_summary 0 exampleWeek).water_goal_achievement_rate =
        (((get_weekly_summary 0 exampleWeek).daily_summaries.countP
            (·.water_goal_met) : ℚ) /
          ((get_weekly_summary 0 exampleWeek).daily_summaries.length : ℚ)) * 100 ∧
      (get_weekly_summary 0 exampleWeek).meal_frequency_goal_achievement_rate =
        (((get_weekly_summary 0 exampleWeek).daily_summaries.countP
            (·.meal_frequency_goal_met) : ℚ) /
          ((get_weekly_summary 0 exampleWeek).daily_summaries.length : ℚ)) * 100) :=
  ⟨by decide, weekly_goal_rates.1 0 exampleWeek (by decide)⟩

/-- C6: a week with no stored rows in `[week_start, week_start + 6]`
produces the explicit all-zero response with an empty per-day list, not an
error. -/
theorem weekly_empty_week (week_start_date : Int) (db : List DailySummary)
    (h : ∀ s ∈ db,
      ¬(week_start_date ≤ s.summary_date ∧ s.summary_date ≤ week_start_date + 6)) :
    get_weekly_summary week_start_date db =
      { week_start_date
        week_end_date := week_start_date + 6
        total_meals_logged := 0
        avg_daily_calories := 0
        avg_daily_protein_g := 0
        avg_daily_carbs_g := 0
        avg_daily_fat_g := 0
        total_water_glasses := 0
        total_photos_taken := 0
        calorie_goal_achievement_rate := 0
        protein_goal_achievement_rate := 0
        water_goal_achievement_rate := 0
        meal_frequency_goal_achievement_rate := 0
        avg_nutrition_score := 0
        avg_consistency_score := 0
        avg_social_engagement_score := 0
        avg_overall_score := 0
        daily_summaries := [] } := by
  have hf : (db.filter fun s =>
      decide (week_start_date ≤ s.summary_date) &&
      decide (s.summary_date ≤ week_start_date + 6)) = [] := by
    rw [List.filter_eq_nil_iff]
    intro a ha
    simpa using h a ha
  simp only [get_weekly_summary]
  rw [hf]
  rfl

/-- Witness for C6: a store whose only row is far outside the requested
week yields the all-zero response. -/
theorem weekly_empty_week_witness :
    (∀ s ∈ [({ summary_date := 100 } : DailySummary)],
      ¬((0 : Int) ≤ s.summary_date ∧ s.summary_date ≤ (0 : Int) + 6)) ∧
    get_weekly_summary 0 [{ summary_date := 100 }] =
      { week_start_date := 0
        week_end_date := 6
        total_meals_logged := 0
        avg_daily_calories := 0
        avg_daily_protein_g := 0
        avg_daily_carbs_g := 0
        avg_daily_fat_g := 0
        total_water_glasses := 0
        total_photos_taken := 0
        calorie_goal_achievement_rate := 0
        protein_goal_achievement_rate := 0
        water_goal_achievement_rate := 0
        meal_frequency_goal_achievement_rate := 0
        avg_nutrition_score := 0
        avg_consistency_score := 0
        avg_social_engagement_score := 0
        avg_overall_score := 0
        daily_summaries := [] } :=
  ⟨by decide, weekly_empty_week 0 [{ summary_date := 100 }] (by decide)⟩

/-- C7: a batch of more than 100 events is rejected wholesale with the
`BadRequestError` message and the stored event log is unchanged; a batch
of at most 100 events is never rejected for size. -/
theorem batch_size_limit :
    (∀ (store : List AnalyticsEvent) (user_id : Nat)
        (events_data : List AnalyticsEventCreateRequest),
      events_data.length > 100 →
      track_events_batch store user_id events_data =
        (store, Except.error "Maximum 100 events allowed per batch")) ∧
    (∀ (store : List AnalyticsEvent) (user_id : Nat)
        (events_data : List AnalyticsEventCreateRequest),
      events_data.length ≤ 100 →
      ∃ resps, (track_events_batch store user_id events_data).2 = Except.ok resps) := by
  constructor
  · intro store user_id events_data h
    unfold track_events_batch
    rw [if_pos h]
  · intro store user_id events_data h
    unfold track_events_batch
    rw [if_neg (by omega)]
    exact ⟨_, rfl⟩

/-- Witness for C7: 101 copies of a request are rejected with the log
untouched; a singleton batch is accepted. -/
theorem batch_size_limit_witness :
    (List.replicate 101 exampleEvent).length > 100 ∧
    track_events_batch [] 1 (List.replicate 101 exampleEvent) =
      ([], Except.error "Maximum 100 events allowed per batch") ∧
    [exampleEvent].length ≤ 100 ∧
    ∃ resps, (track_events_batch [] 1 [exampleEvent]).2 = Except.ok resps :=
  ⟨by decide,
    batch_size_limit.1 [] 1 (List.replicate 101 exampleEvent) (by decide),
    by decide,
    batch_size_limit.2 [] 1 [exampleEvent] (by decide)⟩

/-- C10: an accepted batch returns exactly one response per submitted
event, in input order, each preserving the submitted `event_type`,
`event_category`, `properties`, `session_id`, `platform`, `app_version`. -/
theorem batch_echo (store : List AnalyticsEvent) (user_id : Nat)
    (events_data : List AnalyticsEventCreateRequest)
    (h : events_data.length ≤ 100) :
    ∃ resps, (track_events_batch store user_id events_data).2 = Except.ok resps ∧
      resps.length = events_data.length ∧
      ∀ i, i < events_data.length →
        ∃ e r, events_data[i]? = some e ∧ resps[i]? = some r ∧
          r.event_type = e.event_type ∧
          r.event_category = e.event_category ∧
          r.properties = e.properties ∧
          r.session_id = e.session_id ∧
          r.platform = e.platform ∧
          r.app_version = e.app_version := by
  unfold track_events_batch
  rw [if_neg (by omega)]
  refine ⟨_, rfl, by simp, ?_⟩
  intro i hi
  have he : events_data[i]? = some events_data[i] := List.getElem?_eq_getElem hi
  refine ⟨events_data[i], responseOf (eventFor user_id events_data[i]), he, ?_,
    rfl, rfl, rfl, rfl, rfl, rfl⟩
  simp [List.getElem?_map, he]

/-- Witness for C10 at a concrete two-event batch. -/
theorem batch_echo_witness :
    [exampleEvent, exampleMealEvent].length ≤ 100 ∧
    ∃ resps, (track_events_batch [] 7 [exampleEvent, exampleMealEvent]).2 =
        Except.ok resps ∧
      resps.length = [exampleEvent, exampleMealEvent].length ∧
      ∀ i, i < [exampleEvent, exampleMealEvent].length →
        ∃ e r, [exampleEvent, exampleMealEvent][i]? = some e ∧ resps[i]? = some r ∧
          r.event_type = e.event_type ∧
          r.event_category = e.event_category ∧
          r.properties = e.properties ∧
          r.session_id = e.session_id ∧
          r.platform = e.platform ∧
          r.app_version = e.app_version :=
  ⟨by decide, batch_echo [] 7 [exampleEvent, exampleMealEvent] (by decide)⟩

/-- The streak walk counts exactly `n` when the `n` rows starting at
offset `i` qualify and the walk then runs out of rows or hits a
non-qualifying row. -/
lemma consecutiveDaysFrom_spec (today : Int) (l : List DailySummary) :
    ∀ (i n : Nat), n ≤ l.length →
    (∀ j, j < n → (l[j]?.any fun s => qualifiesB today s (i + j)) = true) →
    (l.length = n ∨ (l[n]?.any fun s => !qualifiesB today s (i + n)) = true) →
    consecutiveDaysFrom today l i = n := by
  induction l with
  | nil =>
      intro i n hlen _ _
      have hn : n = 0 := Nat.le_zero.mp hlen
      subst hn
      rfl
  | cons s rest ih =>
      intro i n hlen hq hstop
      cases n with
      | zero =>
          have hq0 : qualifiesB today s i = false := by
            rcases hstop with h | h
            · exact absurd h (by simp)
            · simp only [List.getElem?_cons_zero, Option.any_some, Nat.add_zero,
                Bool.not_eq_true'] at h
              exact h
          simp [consecutiveDaysFrom, hq0]
      | succ m =>
          have hq0 : qualifiesB today s i = true := by
            have := hq 0 (Nat.succ_pos m)
            simp only [List.getElem?_cons_zero, Option.any_some, Nat.add_zero] at this
            exact this
          have hlen' : m ≤ rest.length := by
            simp only [List.length_cons] at hlen
            omega
          have hq' : ∀ j, j < m →
              (rest[j]?.any fun t => qualifiesB today t (i + 1 + j)) = true := by
            intro j hj
            have h2 := hq (j + 1) (Nat.succ_lt_succ hj)
            simp only [List.getElem?_cons_succ, Nat.add_succ, Nat.succ_add] at h2 ⊢
            exact h2
          have hstop' : rest.length = m ∨
              (rest[m]?.any fun t => !qualifiesB today t (i + 1 + m)) = true := by
            rcases hstop with h | h
            · left; simpa using h
            · right
              simp only [List.getElem?_cons_succ, Nat.add_succ, Nat.succ_add] at h ⊢
              exact h
          simp only [consecutiveDaysFrom, hq0, if_true]
          rw [ih (i + 1) m hlen' hq' hstop']

/-- Under the scenario the streak walk started at offset 0 counts `n`. -/
lemma streakScenario_count {today : Int} {db : List DailySummary} {n : Nat}
    (h : streakScenario today db n) :
    consecutiveDaysFrom today (recentSummaries today db) 0 = n := by
  obtain ⟨hlen, hq, hstop⟩ := h
  refine consecutiveDaysFrom_spec today _ 0 n hlen ?_ ?_
  · intro j hj
    simpa [Nat.zero_add] using hq j hj
  · simpa [Nat.zero_add] using hstop

/-- The streak branch only ever emits insights typed "streak". -/
lemma streakOf_streakInsight (n : Nat) : streakOf (streakInsight n) = streakInsight n := by
  unfold streakInsight streakOf
  split_ifs <;> rfl

/-- The streak branch emits no insight typed "improvement". -/
lemma improvementOf_streakInsight (n : Nat) : improvementOf (streakInsight n) = [] := by
  unfold streakInsight improvementOf
  split_ifs <;> rfl

/-- The trend branch emits no insight typed "streak". -/
lemma streakOf_improvementInsight (l : List DailySummary) :
    streakOf (improvementInsight l) = [] := by
  unfold streakOf
  simp only [improvementInsight]
  split_ifs <;> rfl

/-- The trend branch only ever emits insights typed "improvement". -/
lemma improvementOf_improvementInsight (l : List DailySummary) :
    improvementOf (improvementInsight l) = improvementInsight l := by
  unfold improvementOf
  simp only [improvementInsight]
  split_ifs <;> rfl

/-- C3: with exactly 7 qualifying consecutive days ending today the
returned list holds exactly one streak insight, the "Amazing" variant with
`streak_days = 7`; with exactly 5 such days the one streak insight is the
"Great" variant; with exactly 2 such days no streak insight is emitted;
and the walk itself counts a row at position `i` exactly while its date is
`today − i` and it has `meals_logged > 0`, stopping at the first failure. -/
theorem streak_insight_cases :
    (∀ (today : Int) (l : List DailySummary) (i n : Nat), n ≤ l.length →
      (∀ j, j < n → (l[j]?.any fun s => qualifiesB today s (i + j)) = true) →
      (l.length = n ∨ (l[n]?.any fun s => !qualifiesB today s (i + n)) = true) →
      consecutiveDaysFrom today l i = n) ∧
    (∀ (today : Int) (db : List DailySummary), streakScenario today db 7 →
      streakOf (generate_insights today db) =
        [{ insight_type := "streak", title := "Amazing 7-Day Streak!",
           data_streak_days := some 7 }]) ∧
    (∀ (today : Int) (db : List DailySummary), streakScenario today db 5 →
      streakOf (generate_insights today db) =
        [{ insight_type := "streak", title := "Great 5-Day Streak!",
           data_streak_days := some 5 }]) ∧
    (∀ (today : Int) (db : List DailySummary), streakScenario today db 2 →
      streakOf (generate_insights today db) = []) := by
  have main : ∀ (today : Int) (db : List DailySummary) (n : Nat), 0 < n →
      streakScenario today db n →
      streakOf (generate_insights today db) = streakInsight n := by
    intro today db n hn h
    have hcount := streakScenario_count h
    have hne : (recentSummaries today db).isEmpty = false := by
      rcases h with ⟨hlen, -, -⟩
      cases hrec : recentSummaries today db with
      | nil => rw [hrec] at hlen; simp at hlen; omega
      | cons a t => rfl
    simp only [generate_insights, hne, Bool.false_eq_true, if_false, hcount]
    rw [streakOf, List.filter_append]
    rw [← streakOf, ← streakOf, streakOf_streakInsight, streakOf_improvementInsight,
      List.append_nil]
  refine ⟨consecutiveDaysFrom_spec, ?_, ?_, ?_⟩
  · intro today db h
    rw [main today db 7 (by omega) h]
    rfl
  · intro today db h
    rw [main today db 5 (by omega) h]
    rfl
  · intro today db h
    rw [main today db 2 (by omega) h]
    rfl

/-- Filtering for streak insights distributes over append. -/
lemma streakOf_append (a b : List AnalyticsInsightResponse) :
    streakOf (a ++ b) = streakOf a ++ streakOf b := by
  unfold streakOf
  exact List.filter_append _ _

/-- Filtering for improvement insights distributes over append. -/
lemma improvementOf_append (a b : List AnalyticsInsightResponse) :
    improvementOf (a ++ b) = improvementOf a ++ improvementOf b := by
  unfold improvementOf
  exact List.filter_append _ _

/-- C4: with at least 14 rows in the 30-day window the improvement insight
is emitted exactly when the mean nutrition score of the 7 most recent rows
exceeds the mean of rows 8–14 by at least 5 points, carrying both means
and the raw delta; streak insights always precede improvement insights in
the returned list; an empty window yields no insights. -/
theorem improvement_insight_cases :
    (∀ (today : Int) (db : List DailySummary),
      14 ≤ (recentSummaries today db).length →
      improvementOf (generate_insights today db) =
        if (((recentSummaries today db).take 7).map (·.nutrition_score)).sum / 7 -
            ((((recentSummaries today db).drop 7).take 7).map
              (·.nutrition_score)).sum / 7 ≥ 5 then
          [{ insight_type := "improvement"
             title := "Nutrition Score Improving!"
             data_recent_score :=
               some ((((recentSummaries today db).take 7).map
                 (·.nutrition_score)).sum / 7)
             data_previous_score :=
               some (((((recentSummaries today db).drop 7).take 7).map
                 (·.nutrition_score)).sum / 7)
             data_improvement :=
               some ((((recentSummaries today db).take 7).map
                   (·.nutrition_score)).sum / 7 -
                 ((((recentSummaries today db).drop 7).take 7).map
                   (·.nutrition_score)).sum / 7) }]
        else []) ∧
    (∀ (today : Int) (db : List DailySummary),
      generate_insights today db =
        streakOf (generate_insights today db) ++
          improvementOf (generate_insights today db)) ∧
    (∀ (today : Int) (db : List DailySummary),
      (∀ s ∈ db, ¬(today - 30 ≤ s.summary_date ∧ s.summary_date ≤ today)) →
      generate_insights today db = []) := by
  refine ⟨?_, ?_, ?_⟩
  · intro today db h14
    have hne : (recentSummaries today db).isEmpty = false := by
      have : recentSummaries today db ≠ [] := by
        intro hnil
        rw [hnil] at h14
        simp at h14
      simpa [List.isEmpty_iff] using this
    have h7 : (recentSummaries today db).length ≥ 7 := by omega
    have h14' : (recentSummaries today db).length ≥ 14 := h14
    have hlen2 : (((recentSummaries today db).drop 7).take 7).length = 7 := by
      rw [List.length_take, List.length_drop]
      omega
    have hprev : (((recentSummaries today db).drop 7).take 7).isEmpty = false := by
      have : ((recentSummaries today db).drop 7).take 7 ≠ [] := by
        intro hnil
        rw [hnil] at hlen2
        simp at hlen2
      simpa [List.isEmpty_iff] using this
    have hlen1 : ((recentSummaries today db).take 7).length = 7 := by
      rw [List.length_take]
      omega
    simp only [generate_insights, hne, Bool.false_eq_true, if_false]
    rw [improvementOf_append, improvementOf_streakInsight, List.nil_append,
      improvementOf_improvementInsight]
    simp only [improvementInsight, h7, h14', if_true, hprev, Bool.false_eq_true,
      if_false, hlen1, hlen2, Nat.cast_ofNat]
  · intro today db
    simp only [generate_insights]
    by_cases hrec : (recentSummaries today db).isEmpty = true
    · simp [hrec, streakOf, improvementOf]
    · simp only [hrec, Bool.false_eq_true, if_false]
      rw [streakOf_append, improvementOf_append, streakOf_streakInsight,
        streakOf_improvementInsight, improvementOf_streakInsight,
        improvementOf_improvementInsight, List.append_nil, List.nil_append]
  · intro today db h
    have hf : (db.filter fun s =>
        decide (today - 30 ≤ s.summary_date) && decide (s.summary_date ≤ today)) = [] := by
      rw [List.filter_eq_nil_iff]
      intro a ha
      simpa using h a ha
    have hrec : recentSummaries today db = [] := by
      unfold recentSummaries
      rw [hf]
      rfl
    simp [generate_insights, hrec]

/-- Witness for C3 at concrete 7-, 5- and 2-day histories. -/
theorem streak_insight_cases_witness :
    streakScenario 1000 streakWeekDb 7 ∧
    streakOf (generate_insights 1000 streakWeekDb) =
      [{ insight_type := "streak", title := "Amazing 7-Day Streak!",
         data_streak_days := some 7 }] ∧
    streakScenario 1000 streakFiveDb 5 ∧
    streakOf (generate_insights 1000 streakFiveDb) =
      [{ insight_type := "streak", title := "Great 5-Day Streak!",
         data_streak_days := some 5 }] ∧
    streakScenario 1000 streakTwoDb 2 ∧
    streakOf (generate_insights 1000 streakTwoDb) = [] :=
  ⟨by decide,
    streak_insight_cases.2.1 1000 streakWeekDb (by decide),
    by decide,
    streak_insight_cases.2.2.1 1000 streakFiveDb (by decide),
    by decide,
    streak_insight_cases.2.2.2 1000 streakTwoDb (by decide)⟩

/-- Witness for C4: a delta of exactly 5.0 emits the improvement insight
with both means and the raw delta, a delta of 4.9 emits none. -/
theorem improvement_insight_cases_witness :
    14 ≤ (recentSummaries 1000 improvedTrendDb).length ∧
    improvementOf (generate_insights 1000 improvedTrendDb) =
      [{ insight_type := "improvement", title := "Nutrition Score Improving!",
         data_recent_score := some 55, data_previous_score := some 50,
         data_improvement := some 5 }] ∧
    14 ≤ (recentSummaries 1000 flatTrendDb).length ∧
    improvementOf (generate_insights 1000 flatTrendDb) = [] := by
  have hA := improvement_insight_cases.1 1000 improvedTrendDb (by decide)
  have hB := improvement_insight_cases.1 1000 flatTrendDb (by decide)
  have hlA : recentSummaries 1000 improvedTrendDb = improvedTrendDb := by decide
  have hlB : recentSummaries 1000 flatTrendDb = flatTrendDb := by decide
  refine ⟨by decide, ?_, by decide, ?_⟩
  · rw [hA, hlA]
    norm_num [improvedTrendDb, trendDay]
  · have hq : q549d10 = 549 / 10 := by
      rw [q549d10, Rat.mk'_eq_divInt, Rat.divInt_eq_div]
      norm_num
    rw [hB, hlB]
    norm_num [flatTrendDb, trendDay, hq]

end Meallog
